import Mathlib

/-!
Shallow embedding of `src/critical_detector.py` (class `CriticalIssueDetector`)
and verification of the frozen claims about it.

Modelling conventions, fixed once for the whole file:

* Instants (`datetime` values) are rational numbers of seconds since an
  arbitrary epoch.  `timedelta.total_seconds() / 60` becomes `(now - t) / 60`;
  `timedelta(hours=h)` becomes `h * 3600` seconds.
* Python floats are modelled at `Rat` precision.  Every comparison the
  detector performs is between a small integer count and `len * 0.7`, or
  between an input confidence and a literal threshold; for all list lengths
  below 2^52 the double-precision comparison and the exact rational
  comparison agree, so nothing observable is lost.
* An emotion dictionary is observed by the detector only through
  `e.get('timestamp', now.isoformat())`, `e.get('dominant_emotion')` and
  `e.get('confidence', 0)`.  The timestamp field is therefore modelled by
  what `datetime.fromisoformat` does with it: the key is missing (the code
  substitutes `now.isoformat()`, which parses back to `now`), the string is
  unparsable (`ValueError` is raised), or it parses to an instant.
* A raised Python exception is the `Except.error` case; code that can raise
  returns `Except Unit α`.
* `datetime.now()` is called several times inside one `check_critical_issues`
  invocation; all calls within a single invocation are modelled as observing
  the same instant `now`, which is passed explicitly.
-/

namespace CriticalDetector

/-- The timestamp field of an emotion dictionary, as seen through
`datetime.fromisoformat(e.get('timestamp', now.isoformat()))`:
the key may be absent, present but unparsable (`fromisoformat` raises
`ValueError`), or present and parsing to an instant. -/
inductive TsField where
  | missing
  | bad
  | time (t : Rat)
deriving DecidableEq, Repr

/-- One emotion dictionary, restricted to the keys the detector reads.
`dominant_emotion = none` models an absent key (Python `None`);
`confidence = none` models an absent key (the code defaults it to `0`). -/
structure Obs where
  timestamp : TsField
  dominant_emotion : Option String
  confidence : Option Rat
deriving DecidableEq, Repr

/-- JSON-serializable detail values stored in an issue's `details` dict.
Numbers are modelled at `Rat` precision. -/
inductive JVal where
  | jstr (v : String)
  | jnum (v : Rat)
  | jnull
deriving DecidableEq, Repr

/-- An issue as returned by the rule checkers: the dictionary
`{'type': ..., 'severity': ..., 'details': ..., 'recommendation': ...}`. -/
structure Issue where
  type : String
  severity : String
  details : List (String × JVal)
  recommendation : String
deriving DecidableEq, Repr

/-- One entry of `self.issue_history` (note: the code records the issue's
type, severity and details, but not its recommendation).  The stored
`timestamp` is `datetime.now().isoformat()`; since `fromisoformat` inverts
`isoformat`, it is modelled as the instant itself. -/
structure HistEntry where
  timestamp : Rat
  issue_type : String
  severity : String
  details : List (String × JVal)
deriving DecidableEq, Repr

/-- The detector's mutable state: `self.issue_history`. -/
structure DetectorState where
  issue_history : List HistEntry
deriving DecidableEq, Repr

/-! ### The fixed thresholds (`self.critical_thresholds` in `__init__`) -/

/-- `critical_thresholds['sustained_negative_emotion']['emotion']` -/
def negativeEmotions : List String := ["sad", "angry", "fearful"]

/-- `critical_thresholds['sustained_negative_emotion']['duration_minutes']` -/
def sustainedDuration : Rat := 15

/-- `critical_thresholds['sustained_negative_emotion']['confidence_threshold']` -/
def sustainedConfT : Rat := 7 / 10

/-- `critical_thresholds['rapid_emotion_swings']['swings_per_minute']` -/
def swingsPerMinute : Nat := 3

/-- `critical_thresholds['rapid_emotion_swings']['time_window_minutes']` -/
def swingsWindow : Nat := 5

/-- `critical_thresholds['extreme_emotion']['emotion']` -/
def extremeEmotions : List String := ["angry", "fearful"]

/-- `critical_thresholds['extreme_emotion']['confidence_threshold']` -/
def extremeConfT : Rat := 9 / 10

/-- `critical_thresholds['extreme_emotion']['duration_minutes']` -/
def extremeDuration : Rat := 5

/-- `critical_thresholds['communication_breakdown']['no_response_minutes']` -/
def breakdownMinutes : Rat := 30

/-! ### Issue-type, severity and detail-key string constants -/

def sustainedType : String := "sustained_negative_emotion"
def swingsType : String := "rapid_emotion_swings"
def extremeType : String := "extreme_emotion"
def breakdownType : String := "communication_breakdown"
def sevHigh : String := "high"
def sevMedium : String := "medium"
def emotionKey : String := "emotion"
def durationKey : String := "duration_minutes"
def percentKey : String := "negative_percentage"
def swingsKey : String := "swings_detected"
def windowKey : String := "time_window_minutes"
def confidenceKey : String := "confidence"
def occurrencesKey : String := "occurrences"
def minutesKey : String := "minutes_since_last_interaction"
def sustainedRec : String :=
  "Immediate psychological support recommended. Consider ground control notification."
def swingsRec : String := "Monitor closely. May indicate stress or instability."
def extremeRec : String := "Immediate attention required. Consider ground control notification."
def breakdownRec : String :=
  "Attempt to re-establish communication. If unsuccessful, notify ground control."

/-! ### Windowing -/

/-- `datetime.fromisoformat(e.get('timestamp', now.isoformat()))`: a missing
key parses to `now`; an unparsable string raises. -/
def obsTime (now : Rat) (o : Obs) : Except Unit Rat :=
  match o.timestamp with
  | TsField.missing => Except.ok now
  | TsField.bad => Except.error ()
  | TsField.time t => Except.ok t

/-- The list comprehension
`[e for e in data if (now - fromisoformat(...)).total_seconds() / 60 <= dur]`
used (with the respective durations) by all three windowed rules.  The first
unparsable timestamp aborts the whole comprehension. -/
def recentWithin (now dur : Rat) : List Obs → Except Unit (List Obs)
  | [] => Except.ok []
  | o :: rest =>
      match obsTime now o with
      | Except.error e => Except.error e
      | Except.ok t =>
          match recentWithin now dur rest with
          | Except.error e => Except.error e
          | Except.ok tail =>
              if (now - t) / 60 ≤ dur then Except.ok (o :: tail) else Except.ok tail

/-- Python `e.get('dominant_emotion') in labels` (`None in labels` is false). -/
def labelIn (l : Option String) (labels : List String) : Bool :=
  match l with
  | none => false
  | some s => labels.contains s

/-- `recent[-1].get('dominant_emotion')`. -/
def lastLabel (recent : List Obs) : Option String :=
  recent.getLast?.bind Obs.dominant_emotion

/-- Python `None`-vs-string rendering inside detail dicts. -/
def optJ (l : Option String) : JVal :=
  match l with
  | none => JVal.jnull
  | some s => JVal.jstr s

/-! ### Rule 1: `_check_sustained_negative_emotion` -/

/-- The per-observation test inside the `negative_count` generator:
`e.get('dominant_emotion') in negative_emotions and e.get('confidence', 0) >= confidence_threshold`. -/
def isNegObs (e : Obs) : Bool :=
  labelIn e.dominant_emotion negativeEmotions && decide (sustainedConfT ≤ e.confidence.getD 0)

/-- `_check_sustained_negative_emotion(emotion_data)`. -/
def checkSustainedNegativeEmotion (now : Rat) (emotion_data : List Obs) :
    Except Unit (Option Issue) :=
  if emotion_data.length < 5 then Except.ok none
  else
    match recentWithin now sustainedDuration emotion_data with
    | Except.error e => Except.error e
    | Except.ok recent =>
    if recent.length < 3 then Except.ok none
    else if (recent.length : Rat) * (7 / 10) ≤ (((recent.filter isNegObs).length : Rat)) then
      Except.ok (some
        { type := sustainedType
          severity := sevHigh
          details := [
            (emotionKey, optJ (lastLabel recent)),
            (durationKey, JVal.jnum sustainedDuration),
            (percentKey,
              JVal.jnum ((((recent.filter isNegObs).length : Rat) / (recent.length : Rat)) * 100))]
          recommendation := sustainedRec })
    else Except.ok none

/-! ### Rule 2: `_check_rapid_emotion_swings` -/

/-- Python truthiness of the `prev_emotion` variable (`None` and the empty
string are falsy). -/
def truthy (l : Option String) : Bool :=
  match l with
  | none => false
  | some s => !(s == "")

/-- The change-counting loop:
`if prev_emotion and current != prev_emotion: emotion_changes += 1`. -/
def countChangesAux : Option String → List Obs → Nat
  | _, [] => 0
  | prev, e :: rest =>
      (if truthy prev && decide (e.dominant_emotion ≠ prev) then 1 else 0)
        + countChangesAux e.dominant_emotion rest

/-- `_check_rapid_emotion_swings(emotion_data)`. -/
def checkRapidEmotionSwings (now : Rat) (emotion_data : List Obs) :
    Except Unit (Option Issue) :=
  if emotion_data.length < 5 then Except.ok none
  else
    match recentWithin now (swingsWindow : Rat) emotion_data with
    | Except.error e => Except.error e
    | Except.ok recent =>
    if recent.length < 3 then Except.ok none
    else if swingsPerMinute * swingsWindow ≤ countChangesAux none recent then
      Except.ok (some
        { type := swingsType
          severity := sevMedium
          details := [
            (swingsKey, JVal.jnum (countChangesAux none recent)),
            (windowKey, JVal.jnum (swingsWindow : Rat))]
          recommendation := swingsRec })
    else Except.ok none

/-! ### Rule 3: `_check_extreme_emotion` -/

/-- The per-observation test inside the `extreme_count` generator. -/
def isExtObs (e : Obs) : Bool :=
  labelIn e.dominant_emotion extremeEmotions && decide (extremeConfT ≤ e.confidence.getD 0)

/-- `_check_extreme_emotion(emotion_data)`. -/
def checkExtremeEmotion (now : Rat) (emotion_data : List Obs) :
    Except Unit (Option Issue) :=
  if emotion_data.isEmpty then Except.ok none
  else
    match recentWithin now extremeDuration emotion_data with
    | Except.error e => Except.error e
    | Except.ok recent =>
    if recent.isEmpty then Except.ok none
    else if 2 ≤ (recent.filter isExtObs).length then
      Except.ok (some
        { type := extremeType
          severity := sevHigh
          details := [
            (emotionKey, optJ (lastLabel recent)),
            (confidenceKey, JVal.jnum ((recent.getLast?.bind Obs.confidence).getD 0)),
            (occurrencesKey, JVal.jnum (((recent.filter isExtObs).length : Nat) : Rat))]
          recommendation := extremeRec })
    else Except.ok none

/-! ### Rule 4: `_check_communication_breakdown` -/

/-- `_check_communication_breakdown(last_interaction)`.  (The function's
`if not last_interaction` guard is dead code: a `datetime` is always truthy,
and the caller only invokes it on a provided value.) -/
def checkCommunicationBreakdown (now li : Rat) : Option Issue :=
  if breakdownMinutes ≤ (now - li) / 60 then
    some
      { type := breakdownType
        severity := sevHigh
        details := [(minutesKey, JVal.jnum ((now - li) / 60))]
        recommendation := breakdownRec }
  else none

/-! ### `check_critical_issues` -/

/-- The dictionary appended to `self.issue_history` for one fired issue. -/
def histEntryOf (now : Rat) (i : Issue) : HistEntry :=
  { timestamp := now
    issue_type := i.type
    severity := i.severity
    details := i.details }

/-- `check_critical_issues(emotion_data, audio_data, last_interaction)`:
runs the four rules in their fixed order, collects the fired issues, appends
one history entry per fired issue, and returns the issues together with the
updated state.  The body of the Python method never reads `audio_data`.
`if last_interaction:` is `last_interaction is not None` since a `datetime`
is always truthy. -/
def check_critical_issues (now : Rat) (emotion_data : List Obs)
    (audio_data : List Obs) (last_interaction : Option Rat)
    (st : DetectorState) : Except Unit (List Issue × DetectorState) :=
  match checkSustainedNegativeEmotion now emotion_data with
  | Except.error e => Except.error e
  | Except.ok sustained =>
  match checkRapidEmotionSwings now emotion_data with
  | Except.error e => Except.error e
  | Except.ok swings =>
  match checkExtremeEmotion now emotion_data with
  | Except.error e => Except.error e
  | Except.ok extreme =>
  let breakdown : Option Issue :=
    match last_interaction with
    | some li => checkCommunicationBreakdown now li
    | none => none
  let issues := sustained.toList ++ swings.toList ++ extreme.toList ++ breakdown.toList
  Except.ok (issues, { issue_history := st.issue_history ++ issues.map (histEntryOf now) })

/-! ### `get_issue_history` -/

/-- `get_issue_history(hours)`: filter the history to entries whose recorded
timestamp is at or after `now - timedelta(hours=hours)`. -/
def get_issue_history (now : Rat) (hours : Int) (st : DetectorState) : List HistEntry :=
  let cutoff := now - (hours : Rat) * 3600
  st.issue_history.filter (fun e => decide (cutoff ≤ e.timestamp))

/-! ### `generate_report` -/

def noIssuesMsg : String := "No critical issues detected. All systems normal."
def reportTitle : String := "CRITICAL ISSUE REPORT - "
def nlStr : String := "\n"
def eqCh : Char := '='
def issueTag : String := "Issue #"
def colonSp : String := ": "
def severityTag : String := "Severity: "
def detailsTag : String := "Details: "
def recTag : String := "Recommendation: "
def dq : String := "\""
def nullLit : String := "null"
def indent2 : String := "  "
def commaStr : String := ","
def lbr : String := "\x7b"
def rbr : String := "\x7d"

/-- Python `str.title()` on ASCII data: a letter is uppercased when the
previous character was not a letter, lowercased otherwise. -/
def pyTitleAux : Bool → List Char → List Char
  | _, [] => []
  | prevAlpha, c :: rest =>
      (if c.isAlpha then (if prevAlpha then c.toLower else c.toUpper) else c)
        :: pyTitleAux c.isAlpha rest

/-- `issue['type'].replace('_', ' ').title()`. -/
def titleOfType (s : String) : String :=
  String.mk (pyTitleAux false (s.data.map (fun c => if c = '_' then ' ' else c)))

/-- `issue['severity'].upper()`. -/
def pyUpper (s : String) : String := String.mk (s.data.map Char.toUpper)

/-- One JSON value inside `json.dumps(details, indent=2)`.  Numbers are
rendered at `Rat` precision (the exact digit string of a float is
immaterial to every stated property); the string values of this detector
are plain emotion labels needing no escaping. -/
def jvalRender : JVal → String
  | JVal.jstr v => dq ++ v ++ dq
  | JVal.jnum v => toString v
  | JVal.jnull => nullLit

def dumpsPair (p : String × JVal) : String :=
  indent2 ++ dq ++ p.1 ++ dq ++ colonSp ++ jvalRender p.2

/-- `json.dumps(issue['details'], indent=2)`. -/
def dumpsDetails (d : List (String × JVal)) : String :=
  match d with
  | [] => lbr ++ rbr
  | _ => lbr ++ nlStr ++ String.intercalate (commaStr ++ nlStr) (d.map dumpsPair)
          ++ nlStr ++ rbr

/-- The four lines (plus blank line) the loop appends for the `i`-th
(1-based) issue. -/
def issueBlock (i : Nat) (issue : Issue) : String :=
  issueTag ++ toString i ++ colonSp ++ titleOfType issue.type ++ nlStr
    ++ severityTag ++ pyUpper issue.severity ++ nlStr
    ++ detailsTag ++ dumpsDetails issue.details ++ nlStr
    ++ recTag ++ issue.recommendation ++ nlStr ++ nlStr

/-- The `for i, issue in enumerate(issues, 1)` accumulation loop
(`report += ...` four times per issue). -/
def reportLoop : String → Nat → List Issue → String
  | acc, _, [] => acc
  | acc, i, x :: xs => reportLoop (acc ++ issueBlock i x) (i + 1) xs

/-- `generate_report(issues)`.  `nowStr` stands for
`datetime.now().strftime('%Y-%m-%d %H:%M:%S')`, the only place the current
time enters the output. -/
def generate_report (nowStr : String) (issues : List Issue) : String :=
  if issues.isEmpty then noIssuesMsg
  else reportLoop
    (reportTitle ++ nowStr ++ nlStr ++ String.mk (List.replicate 50 eqCh) ++ nlStr ++ nlStr)
    1 issues

/-- Everything after the first newline of a character sequence: the part of
the report the claim says is time-independent ("byte-identical except for
the leading current-timestamp line"). -/
def stripFirstLine : List Char → List Char
  | [] => []
  | c :: rest => if c = '\n' then rest else stripFirstLine rest

/-! ### Concrete inputs used by witnesses and counterexamples -/

/-- An observation with a parsed timestamp, a present label and a present
confidence. -/
def obsAt (t : Rat) (lab : String) (c : Rat) : Obs :=
  { timestamp := TsField.time t, dominant_emotion := some lab, confidence := some c }

def sadLbl : String := "sad"
def angryLbl : String := "angry"
def happyLbl : String := "happy"
def neutralLbl : String := "neutral"

/-- One observation whose timestamp string `datetime.fromisoformat`
rejects, e.g. `{'timestamp': 'not-a-date', 'dominant_emotion': 'sad',
'confidence': 0.8}`. -/
def badTsObs : Obs :=
  { timestamp := TsField.bad, dominant_emotion := some sadLbl, confidence := some (4/5) }

def fiveSad : List Obs := List.replicate 5 (obsAt 0 sadLbl (4/5))
def threeSad : List Obs := List.replicate 3 (obsAt 0 sadLbl (4/5))
def twoAngryHi : List Obs := List.replicate 2 (obsAt 0 angryLbl (19/20))
def twoAngryLo : List Obs := List.replicate 2 (obsAt 0 angryLbl (17/20))
def swingObs : List Obs :=
  (List.range 16).map (fun i => obsAt 0 (if i % 2 = 0 then happyLbl else sadLbl) 1)
def oneNeutral : List Obs := [obsAt 0 neutralLbl 1]
def emptyState : DetectorState := { issue_history := [] }

def dateA : String := "2024-01-01 00:00:00"
def dateB : String := "2025-12-31 23:59:59"

/-- A sample issue list for exercising `generate_report`. -/
def demoIssues : List Issue :=
  [{ type := breakdownType
     severity := sevHigh
     details := [(minutesKey, JVal.jnum 31)]
     recommendation := breakdownRec }]

/-- The issue `check` raises at `now = 0` when `last_interaction` lies 31
minutes in the past. -/
def breakdownIssue31 : Issue :=
  { type := breakdownType
    severity := sevHigh
    details := [(minutesKey, JVal.jnum 31)]
    recommendation := breakdownRec }

/-- The history entry recorded for `breakdownIssue31` at `now = 0`. -/
def breakdownEntry31 : HistEntry :=
  { timestamp := 0
    issue_type := breakdownType
    severity := sevHigh
    details := [(minutesKey, JVal.jnum 31)] }

/-- The issue `check` raises at `now = 0` when `last_interaction` lies
exactly 30 minutes in the past (inclusive boundary). -/
def breakdownIssue30 : Issue :=
  { type := breakdownType
    severity := sevHigh
    details := [(minutesKey, JVal.jnum 30)]
    recommendation := breakdownRec }

/-- The history entry recorded for `breakdownIssue30` at `now = 0`. -/
def breakdownEntry30 : HistEntry :=
  { timestamp := 0
    issue_type := breakdownType
    severity := sevHigh
    details := [(minutesKey, JVal.jnum 30)] }

/-! ### Characterizing the window comprehension on parsable input -/

/-- The instant an observation's timestamp field parses to, assuming it is
not unparsable (a missing key defaults to `now`). -/
def parsedTime (now : Rat) (o : Obs) : Rat :=
  match o.timestamp with
  | TsField.missing => now
  | TsField.bad => now
  | TsField.time t => t

/-- "The observation lies within `dur` minutes of `now`": the window filter
condition of the three windowed rules. -/
def inWindowB (now dur : Rat) (o : Obs) : Bool :=
  decide ((now - parsedTime now o) / 60 ≤ dur)

/-! ### Spec-side restatements of the claims' firing conditions -/

/-- Claim C3's firing condition, written from the spec's words: at least 3
observations within 15 minutes of `now`, and among them the count with label
in `{sad, angry, fearful}` and confidence at least `0.7` is at least `0.7`
times the in-window count (`negcount >= 0.7 * n` iff `10 * negcount >= 7 * n`). -/
def sustainedClaimFires (now : Rat) (l : List Obs) : Bool :=
  let recent := l.filter (inWindowB now 15)
  (3 ≤ recent.length) && (7 * recent.length ≤ 10 * (recent.filter isNegObs).length)

/-- Claim C4's count, written from the spec's words: observations within 5
minutes of `now` with label in `{angry, fearful}` and confidence at least 0.9. -/
def extremeClaimCount (now : Rat) (l : List Obs) : Nat :=
  ((l.filter (inWindowB now 5)).filter isExtObs).length

/-- Adjacent-pair label changes of a label sequence walked in order, as
claim C5 words it: the number of consecutive pairs with distinct labels. -/
def adjChanges : List (Option String) → Nat
  | [] => 0
  | [_] => 0
  | a :: b :: rest => (if a ≠ b then 1 else 0) + adjChanges (b :: rest)

theorem obsTime_eq (now : Rat) (o : Obs) (h : o.timestamp ≠ TsField.bad) :
    obsTime now o = Except.ok (parsedTime now o) := by
  cases ht : o.timestamp with
  | missing => simp [obsTime, parsedTime, ht]
  | bad => exact absurd ht h
  | time t => simp [obsTime, parsedTime, ht]

/-- On input whose timestamps all parse, the window comprehension succeeds
and is the pure filter by the window condition. -/
theorem recentWithin_eq (now dur : Rat) (l : List Obs)
    (h : ∀ o ∈ l, o.timestamp ≠ TsField.bad) :
    recentWithin now dur l = Except.ok (l.filter (inWindowB now dur)) := by
  induction l with
  | nil => rfl
  | cons o rest ih =>
      have ho : o.timestamp ≠ TsField.bad := h o (List.mem_cons_self o rest)
      have hrest : ∀ x ∈ rest, x.timestamp ≠ TsField.bad :=
        fun x hx => h x (List.mem_cons_of_mem o hx)
      simp only [recentWithin, obsTime_eq now o ho, ih hrest, List.filter_cons]
      by_cases hc : (now - parsedTime now o) / 60 ≤ dur
      · rw [if_pos hc]
        simp [inWindowB, hc]
      · rw [if_neg hc]
        simp [inWindowB, hc]

/-- The change-counting loop agrees with the plain adjacent-distinct count
as soon as every label (and the seed) is present and non-empty. -/
theorem countChangesAux_eq_adjChanges (l : List Obs)
    (hl : ∀ o ∈ l, truthy o.dominant_emotion = true) :
    ∀ p, truthy p = true →
      countChangesAux p l = adjChanges (p :: l.map Obs.dominant_emotion) := by
  induction l with
  | nil => intro p _; rfl
  | cons e rest ih =>
      intro p hp
      have he : truthy e.dominant_emotion = true := hl e (List.mem_cons_self e rest)
      have hrest : ∀ o ∈ rest, truthy o.dominant_emotion = true :=
        fun o ho => hl o (List.mem_cons_of_mem e ho)
      simp only [countChangesAux, List.map_cons, adjChanges, hp, Bool.true_and]
      rw [ih hrest e.dominant_emotion he]
      by_cases hne : e.dominant_emotion = p
      · simp [hne]
      · simp [hne, Ne.symm hne]

/-- From the empty seed, the loop's count is the adjacent-distinct count of
the label sequence (the first iteration never counts: `prev_emotion` is
`None`). -/
theorem countChangesAux_none (l : List Obs)
    (hl : ∀ o ∈ l, truthy o.dominant_emotion = true) :
    countChangesAux none l = adjChanges (l.map Obs.dominant_emotion) := by
  cases l with
  | nil => rfl
  | cons e rest =>
      have he : truthy e.dominant_emotion = true := hl e (List.mem_cons_self e rest)
      have hrest : ∀ o ∈ rest, truthy o.dominant_emotion = true :=
        fun o ho => hl o (List.mem_cons_of_mem e ho)
      have h0 : countChangesAux none (e :: rest) = 0 + countChangesAux e.dominant_emotion rest := by
        simp [countChangesAux, truthy]
      rw [h0, Nat.zero_add, countChangesAux_eq_adjChanges rest hrest e.dominant_emotion he,
        List.map_cons]

/-- A sequence starting at `a` has at most one change per later element. -/
theorem adjChanges_cons_le (a : Option String) (l : List (Option String)) :
    adjChanges (a :: l) ≤ l.length := by
  induction l generalizing a with
  | nil => simp [adjChanges]
  | cons b rest ih =>
      simp only [adjChanges, List.length_cons]
      have := ih b
      split <;> omega

/-! ### Claim C4: the extreme-emotion rule -/

/-- C4: for every observation sequence (timestamps parsable, per the data
model), the extreme-emotion rule produces an issue of type `extreme_emotion`
and severity `high` if and only if at least 2 observations within 5 minutes
of `now` have label in `{angry, fearful}` and confidence at least 0.9. -/
theorem C4_extreme_rule_iff (now : Rat) (l : List Obs)
    (h : ∀ o ∈ l, o.timestamp ≠ TsField.bad) :
    (∃ i, checkExtremeEmotion now l = Except.ok (some i)
        ∧ i.type = extremeType ∧ i.severity = sevHigh)
      ↔ 2 ≤ extremeClaimCount now l := by
  have hdur : extremeDuration = (5 : Rat) := rfl
  unfold checkExtremeEmotion extremeClaimCount
  simp only [hdur, recentWithin_eq now (5 : Rat) l h]
  by_cases hl : l.isEmpty
  · rw [if_pos hl, List.isEmpty_iff.mp hl]
    constructor
    · rintro ⟨i, hi, -⟩
      simp at hi
    · intro hcnt
      simp at hcnt
  · rw [if_neg hl]
    by_cases hr : (List.filter (inWindowB now 5) l).isEmpty
    · rw [if_pos hr]
      constructor
      · rintro ⟨i, hi, -⟩
        simp at hi
      · intro hcnt
        rw [List.isEmpty_iff.mp hr] at hcnt
        simp at hcnt
    · rw [if_neg hr]
      by_cases hc : 2 ≤ (List.filter isExtObs (List.filter (inWindowB now 5) l)).length
      · rw [if_pos hc]
        exact ⟨fun _ => hc, fun _ => ⟨_, rfl, rfl, rfl⟩⟩
      · rw [if_neg hc]
        constructor
        · rintro ⟨i, hi, -⟩
          simp at hi
        · intro hcnt
          exact absurd hcnt hc

/-! ### Claim C3: the sustained-negative rule -/

/-- The code's exact rational comparison `negative_count >= len(recent) * 0.7`
matches the integer comparison `10 * negative_count >= 7 * len(recent)`. -/
theorem seventyPercent_iff (a b : Nat) :
    ((a : Rat) * (7 / 10) ≤ (b : Rat)) ↔ 7 * a ≤ 10 * b := by
  constructor
  · intro h1
    have h2 : ((7 * a : Nat) : Rat) ≤ ((10 * b : Nat) : Rat) := by push_cast; linarith
    exact_mod_cast h2
  · intro h1
    have h2 : ((7 * a : Nat) : Rat) ≤ ((10 * b : Nat) : Rat) := by exact_mod_cast h1
    push_cast at h2
    linarith

/-- C3 as amended: the sustained-negative rule produces an issue of type
`sustained_negative_emotion` and severity `high`, with a negative-percentage
detail in `[0, 100]`, if and only if the whole sequence has at least 5
observations (the code's unstated early return) and the claim's stated
condition holds: at least 3 observations within 15 minutes of `now`, of
which at least 70 percent have a negative label with confidence at least
0.7.  Timestamps are assumed parsable (data-model observations). -/
theorem C3_sustained_rule_iff (now : Rat) (l : List Obs)
    (h : ∀ o ∈ l, o.timestamp ≠ TsField.bad) :
    (∃ i, checkSustainedNegativeEmotion now l = Except.ok (some i)
        ∧ i.type = sustainedType ∧ i.severity = sevHigh
        ∧ ∃ p, i.details.lookup percentKey = some (JVal.jnum p) ∧ 0 ≤ p ∧ p ≤ 100)
      ↔ (5 ≤ l.length ∧ sustainedClaimFires now l = true) := by
  have hdur : sustainedDuration = (15 : Rat) := rfl
  unfold checkSustainedNegativeEmotion sustainedClaimFires
  simp only [hdur, recentWithin_eq now (15 : Rat) l h, Bool.and_eq_true, decide_eq_true_eq]
  set recent := List.filter (inWindowB now 15) l with hrec
  by_cases h5 : l.length < 5
  · rw [if_pos h5]
    constructor
    · rintro ⟨i, hi, -⟩
      simp at hi
    · rintro ⟨h5', -⟩
      omega
  · rw [if_neg h5]
    by_cases h3 : recent.length < 3
    · rw [if_pos h3]
      constructor
      · rintro ⟨i, hi, -⟩
        simp at hi
      · rintro ⟨-, h3', -⟩
        omega
    · rw [if_neg h3]
      by_cases hfire :
          ((recent.length : Rat)) * (7 / 10) ≤ (((recent.filter isNegObs).length : Rat))
      · rw [if_pos hfire]
        have hcle : (recent.filter isNegObs).length ≤ recent.length :=
          List.length_filter_le _ _
        constructor
        · intro _
          exact ⟨by omega, by omega, (seventyPercent_iff _ _).mp hfire⟩
        · intro _
          refine ⟨_, rfl, rfl, rfl, ?_⟩
          refine ⟨((((recent.filter isNegObs).length : Rat)) / ((recent.length : Rat))) * 100,
            ?_, ?_, ?_⟩
          · simp [List.lookup, percentKey, emotionKey, durationKey]
          · positivity
          · have hlenpos : (0 : Rat) < (recent.length : Rat) := by
              have : 0 < recent.length := by omega
              exact_mod_cast this
            have hdivle : (((recent.filter isNegObs).length : Rat)) / ((recent.length : Rat)) ≤ 1 := by
              rw [div_le_one hlenpos]
              exact_mod_cast hcle
            linarith
      · rw [if_neg hfire]
        constructor
        · rintro ⟨i, hi, -⟩
          simp at hi
        · rintro ⟨-, -, hcnt⟩
          exact absurd ((seventyPercent_iff _ _).mpr hcnt) hfire

/-- C3 counterexample: three in-window `sad` observations at confidence 0.8
satisfy the claim's stated firing condition (3 observations within 15
minutes, 100 percent negative), yet the rule returns no issue, because of
the code's unstated `if len(emotion_data) < 5: return None` early exit. -/
theorem C3_sustained_counterexample :
    sustainedClaimFires 0 threeSad = true
      ∧ checkSustainedNegativeEmotion 0 threeSad = Except.ok none := by
  refine ⟨?_, rfl⟩
  norm_num [sustainedClaimFires, threeSad, obsAt, inWindowB, parsedTime, isNegObs,
    labelIn, negativeEmotions, sustainedConfT, sadLbl, List.replicate]

/-- Witness for C3 at the spec's own example: five in-window `sad`
observations at confidence 0.8 fire the rule. -/
theorem C3_sustained_rule_iff_witness :
    ∃ i, checkSustainedNegativeEmotion 0 fiveSad = Except.ok (some i)
      ∧ i.type = sustainedType ∧ i.severity = sevHigh
      ∧ ∃ p, i.details.lookup percentKey = some (JVal.jnum p) ∧ 0 ≤ p ∧ p ≤ 100 :=
  (C3_sustained_rule_iff 0 fiveSad (by decide)).mpr
    ⟨by decide, by
      norm_num [sustainedClaimFires, fiveSad, obsAt, inWindowB, parsedTime, isNegObs,
        labelIn, negativeEmotions, sustainedConfT, sadLbl, List.replicate]⟩

/-- Witness for C4 at the claim's own example inputs: two in-window `angry`
observations at confidence 0.95 fire the rule, and at confidence 0.85
(below the 0.9 cutoff) no issue is produced. -/
theorem C4_extreme_rule_iff_witness :
    (∃ i, checkExtremeEmotion 0 twoAngryHi = Except.ok (some i)
        ∧ i.type = extremeType ∧ i.severity = sevHigh)
      ∧ ¬ (∃ i, checkExtremeEmotion 0 twoAngryLo = Except.ok (some i)
        ∧ i.type = extremeType ∧ i.severity = sevHigh) := by
  constructor
  · exact (C4_extreme_rule_iff 0 twoAngryHi (by decide)).mpr (by
      norm_num [extremeClaimCount, twoAngryHi, obsAt, inWindowB, parsedTime, isExtObs,
        labelIn, extremeEmotions, extremeConfT, angryLbl, List.replicate])
  · intro hex
    exact absurd ((C4_extreme_rule_iff 0 twoAngryLo (by decide)).mp hex) (by
      norm_num [extremeClaimCount, twoAngryLo, obsAt, inWindowB, parsedTime, isExtObs,
        labelIn, extremeEmotions, extremeConfT, angryLbl, List.replicate])

/-! ### Claim C5: the rapid-swings rule -/

/-- A label sequence has at most one change per element after the first. -/
theorem adjChanges_le_sub_one (ls : List (Option String)) :
    adjChanges ls ≤ ls.length - 1 := by
  cases ls with
  | nil => simp [adjChanges]
  | cons a t => simpa using adjChanges_cons_le a t

/-- C5: for every observation sequence (per the data model: parsable
timestamps, a present non-empty label), the rapid-swings rule produces an
issue of type `rapid_emotion_swings` and severity `medium` if and only if at
least 3 observations lie within 5 minutes of `now` and the number of
adjacent-pair label changes among the in-window observations, walked in
order, is at least `swings_per_minute * time_window_minutes = 15`.  (The
code's `len(emotion_data) < 5` early exit never blocks a firing: 15 changes
require at least 16 in-window observations.) -/
theorem C5_swings_rule_iff (now : Rat) (l : List Obs)
    (h : ∀ o ∈ l, o.timestamp ≠ TsField.bad ∧ truthy o.dominant_emotion = true) :
    (∃ i, checkRapidEmotionSwings now l = Except.ok (some i)
        ∧ i.type = swingsType ∧ i.severity = sevMedium)
      ↔ (3 ≤ (l.filter (inWindowB now 5)).length
          ∧ swingsPerMinute * swingsWindow ≤
              adjChanges ((l.filter (inWindowB now 5)).map Obs.dominant_emotion)) := by
  have hts : ∀ o ∈ l, o.timestamp ≠ TsField.bad := fun o ho => (h o ho).1
  have hw : ((swingsWindow : Nat) : Rat) = (5 : Rat) := by norm_num [swingsWindow]
  unfold checkRapidEmotionSwings
  simp only [hw, recentWithin_eq now (5 : Rat) l hts]
  set recent := List.filter (inWindowB now 5) l with hrec
  have hlab : ∀ o ∈ recent, truthy o.dominant_emotion = true :=
    fun o ho => (h o (List.mem_of_mem_filter ho)).2
  have hcount : countChangesAux none recent = adjChanges (recent.map Obs.dominant_emotion) :=
    countChangesAux_none recent hlab
  have hle : adjChanges (recent.map Obs.dominant_emotion) ≤ recent.length - 1 := by
    have := adjChanges_le_sub_one (recent.map Obs.dominant_emotion)
    simpa using this
  have hrecl : recent.length ≤ l.length := List.length_filter_le _ _
  by_cases h5 : l.length < 5
  · rw [if_pos h5]
    constructor
    · rintro ⟨i, hi, -⟩
      simp at hi
    · rintro ⟨-, hch⟩
      have : 15 ≤ adjChanges (recent.map Obs.dominant_emotion) := by
        simpa [swingsPerMinute, swingsWindow] using hch
      omega
  · rw [if_neg h5]
    by_cases h3 : recent.length < 3
    · rw [if_pos h3]
      constructor
      · rintro ⟨i, hi, -⟩
        simp at hi
      · rintro ⟨h3', -⟩
        omega
    · rw [if_neg h3]
      rw [hcount]
      by_cases hch : swingsPerMinute * swingsWindow ≤ adjChanges (recent.map Obs.dominant_emotion)
      · rw [if_pos hch]
        exact ⟨fun _ => ⟨by omega, hch⟩, fun _ => ⟨_, rfl, rfl, rfl⟩⟩
      · rw [if_neg hch]
        constructor
        · rintro ⟨i, hi, -⟩
          simp at hi
        · rintro ⟨-, hch'⟩
          exact absurd hch' hch

/-- Witness for C5: sixteen in-window observations alternating `happy` and
`sad` produce 15 adjacent changes and fire the rule. -/
theorem C5_swings_rule_iff_witness :
    ∃ i, checkRapidEmotionSwings 0 swingObs = Except.ok (some i)
      ∧ i.type = swingsType ∧ i.severity = sevMedium := by
  have hfilter : swingObs.filter (inWindowB 0 5) = swingObs :=
    List.filter_eq_self.mpr (fun o ho => by
      obtain ⟨i, -, rfl⟩ := List.mem_map.mp ho
      norm_num [inWindowB, parsedTime, obsAt])
  refine (C5_swings_rule_iff 0 swingObs (by decide)).mpr ⟨?_, ?_⟩
  · rw [hfilter]
    decide
  · rw [hfilter]
    decide

/-! ### Claim C6: the communication-breakdown rule inside `check` -/

theorem sustained_some_type (now : Rat) (l : List Obs) (i : Issue)
    (h : checkSustainedNegativeEmotion now l = Except.ok (some i)) :
    i.type = sustainedType := by
  unfold checkSustainedNegativeEmotion at h
  split at h
  · exact absurd h (by simp)
  · cases hr : recentWithin now sustainedDuration l with
    | error e =>
        rw [hr] at h
        exact absurd h (by simp)
    | ok recent =>
        rw [hr] at h
        split at h
        · exact absurd h (by simp)
        · split at h
          · exact absurd h (by simp)
          · split at h
            · injection h with h1
              injection h1 with h2
              subst h2
              rfl
            · exact absurd h (by simp)

theorem swings_some_type (now : Rat) (l : List Obs) (i : Issue)
    (h : checkRapidEmotionSwings now l = Except.ok (some i)) :
    i.type = swingsType := by
  unfold checkRapidEmotionSwings at h
  split at h
  · exact absurd h (by simp)
  · cases hr : recentWithin now ((swingsWindow : Nat) : Rat) l with
    | error e =>
        rw [hr] at h
        exact absurd h (by simp)
    | ok recent =>
        rw [hr] at h
        split at h
        · exact absurd h (by simp)
        · split at h
          · exact absurd h (by simp)
          · split at h
            · injection h with h1
              injection h1 with h2
              subst h2
              rfl
            · exact absurd h (by simp)

theorem extreme_some_type (now : Rat) (l : List Obs) (i : Issue)
    (h : checkExtremeEmotion now l = Except.ok (some i)) :
    i.type = extremeType := by
  unfold checkExtremeEmotion at h
  split at h
  · exact absurd h (by simp)
  · cases hr : recentWithin now extremeDuration l with
    | error e =>
        rw [hr] at h
        exact absurd h (by simp)
    | ok recent =>
        rw [hr] at h
        split at h
        · exact absurd h (by simp)
        · split at h
          · exact absurd h (by simp)
          · split at h
            · injection h with h1
              injection h1 with h2
              subst h2
              rfl
            · exact absurd h (by simp)

theorem checkSustained_isOk (now : Rat) (l : List Obs)
    (h : ∀ o ∈ l, o.timestamp ≠ TsField.bad) :
    ∃ r, checkSustainedNegativeEmotion now l = Except.ok r := by
  unfold checkSustainedNegativeEmotion
  simp only [recentWithin_eq now sustainedDuration l h]
  repeat' split
  all_goals exact ⟨_, rfl⟩

theorem checkSwings_isOk (now : Rat) (l : List Obs)
    (h : ∀ o ∈ l, o.timestamp ≠ TsField.bad) :
    ∃ r, checkRapidEmotionSwings now l = Except.ok r := by
  unfold checkRapidEmotionSwings
  simp only [recentWithin_eq now ((swingsWindow : Nat) : Rat) l h]
  repeat' split
  all_goals exact ⟨_, rfl⟩

theorem checkExtreme_isOk (now : Rat) (l : List Obs)
    (h : ∀ o ∈ l, o.timestamp ≠ TsField.bad) :
    ∃ r, checkExtremeEmotion now l = Except.ok r := by
  unfold checkExtremeEmotion
  simp only [recentWithin_eq now extremeDuration l h]
  repeat' split
  all_goals exact ⟨_, rfl⟩

theorem breakdown_some_cond (now t : Rat) (i : Issue)
    (h : checkCommunicationBreakdown now t = some i) :
    breakdownMinutes ≤ (now - t) / 60 ∧ i.type = breakdownType ∧ i.severity = sevHigh := by
  unfold checkCommunicationBreakdown at h
  split at h
  · next hc =>
      injection h with h1
      subst h1
      exact ⟨hc, rfl, rfl⟩
  · simp at h

theorem breakdown_cond_some (now t : Rat)
    (hc : breakdownMinutes ≤ (now - t) / 60) :
    ∃ i, checkCommunicationBreakdown now t = some i
      ∧ i.type = breakdownType ∧ i.severity = sevHigh := by
  unfold checkCommunicationBreakdown
  simp only [hc, if_true]
  exact ⟨_, rfl, rfl, rfl⟩

/-- C6: with parsable timestamps, `check` succeeds, and its output contains
a `communication_breakdown` issue (severity `high`) if and only if
`last_interaction` was provided and lies at least `no_response_minutes = 30`
minutes in the past (inclusive comparison); when `last_interaction` is
absent the rule is skipped entirely. -/
theorem C6_breakdown_iff (now : Rat) (l audio : List Obs) (li : Option Rat)
    (st : DetectorState) (h : ∀ o ∈ l, o.timestamp ≠ TsField.bad) :
    ∃ issues st', check_critical_issues now l audio li st = Except.ok (issues, st')
      ∧ ((∃ i ∈ issues, i.type = breakdownType ∧ i.severity = sevHigh)
          ↔ ∃ t, li = some t ∧ breakdownMinutes ≤ (now - t) / 60) := by
  obtain ⟨rs, hrs⟩ := checkSustained_isOk now l h
  obtain ⟨rw_, hrw⟩ := checkSwings_isOk now l h
  obtain ⟨re, hre⟩ := checkExtreme_isOk now l h
  unfold check_critical_issues
  simp only [hrs, hrw, hre]
  refine ⟨_, _, rfl, ?_⟩
  constructor
  · rintro ⟨i, hmem, htype, hsev⟩
    rcases List.mem_append.mp hmem with hmem1 | hbd
    · rcases List.mem_append.mp hmem1 with hmem2 | hex
      · rcases List.mem_append.mp hmem2 with hsus | hsw
        · have hs : rs = some i := Option.mem_def.mp (Option.mem_toList.mp hsus)
          rw [hs] at hrs
          have := sustained_some_type now l i hrs
          rw [this] at htype
          exact absurd htype (by decide)
        · have hs : rw_ = some i := Option.mem_def.mp (Option.mem_toList.mp hsw)
          rw [hs] at hrw
          have := swings_some_type now l i hrw
          rw [this] at htype
          exact absurd htype (by decide)
      · have hs : re = some i := Option.mem_def.mp (Option.mem_toList.mp hex)
        rw [hs] at hre
        have := extreme_some_type now l i hre
        rw [this] at htype
        exact absurd htype (by decide)
    · cases li with
      | none => simp at hbd
      | some t =>
          have hs : checkCommunicationBreakdown now t = some i :=
            Option.mem_def.mp (Option.mem_toList.mp hbd)
          exact ⟨t, rfl, (breakdown_some_cond now t i hs).1⟩
  · rintro ⟨t, rfl, hcond⟩
    obtain ⟨i, hbd, ht, hs⟩ := breakdown_cond_some now t hcond
    refine ⟨i, ?_, ht, hs⟩
    simp [hbd]

/-- Witness for C6 at the boundary: `last_interaction` exactly 30 minutes in
the past satisfies the inclusive comparison, and `check` on an empty
observation list reports the breakdown accordingly. -/
theorem C6_breakdown_iff_witness :
    (breakdownMinutes ≤ ((0 : Rat) - (-1800)) / 60)
      ∧ ∃ issues st', check_critical_issues 0 [] [] (some (-1800)) emptyState
          = Except.ok (issues, st')
        ∧ ((∃ i ∈ issues, i.type = breakdownType ∧ i.severity = sevHigh)
            ↔ ∃ t, (some (-1800) : Option Rat) = some t
                ∧ breakdownMinutes ≤ ((0 : Rat) - t) / 60) := by
  constructor
  · norm_num [breakdownMinutes]
  · exact C6_breakdown_iff 0 [] [] (some (-1800)) emptyState (by simp)

/-! ### Claim C2: all-neutral input -/

/-- The change-counting loop reports zero changes when every label equals a
fixed `some n` and the seed is `none` or that same label. -/
theorem countChangesAux_const (n : String) (l : List Obs)
    (hl : ∀ o ∈ l, o.dominant_emotion = some n) :
    ∀ p, p = none ∨ p = some n → countChangesAux p l = 0 := by
  induction l with
  | nil => intro p _; rfl
  | cons e rest ih =>
      intro p hp
      have he : e.dominant_emotion = some n := hl e (List.mem_cons_self e rest)
      have hrest : ∀ o ∈ rest, o.dominant_emotion = some n :=
        fun o ho => hl o (List.mem_cons_of_mem e ho)
      have htail := ih hrest e.dominant_emotion (Or.inr he)
      rw [he] at htail
      rcases hp with rfl | rfl
      · simp [countChangesAux, truthy, he, htail]
      · simp [countChangesAux, truthy, he, htail]

theorem sustained_neutral_none (now : Rat) (l : List Obs)
    (h : ∀ o ∈ l, o.timestamp ≠ TsField.bad ∧ o.dominant_emotion = some neutralLbl) :
    checkSustainedNegativeEmotion now l = Except.ok none := by
  have hts : ∀ o ∈ l, o.timestamp ≠ TsField.bad := fun o ho => (h o ho).1
  unfold checkSustainedNegativeEmotion
  simp only [recentWithin_eq now sustainedDuration l hts]
  set recent := List.filter (inWindowB now sustainedDuration) l with hrec
  have hfil : recent.filter isNegObs = [] := by
    rw [List.filter_eq_nil_iff]
    intro a ha
    have hlab := (h a (List.mem_of_mem_filter ha)).2
    simp [isNegObs, labelIn, hlab, negativeEmotions, neutralLbl]
  by_cases h5 : l.length < 5
  · rw [if_pos h5]
  · rw [if_neg h5]
    by_cases h3 : recent.length < 3
    · rw [if_pos h3]
    · rw [if_neg h3]
      have hnot : ¬ ((recent.length : Rat) * (7 / 10)
          ≤ (((recent.filter isNegObs).length : Rat))) := by
        rw [hfil]
        simp only [List.length_nil, Nat.cast_zero]
        have hpos : (0 : Rat) < (recent.length : Rat) := by
          have h0 : 0 < recent.length := by omega
          exact_mod_cast h0
        nlinarith
      rw [if_neg hnot]

theorem swings_const_none (now : Rat) (l : List Obs) (n : String)
    (h : ∀ o ∈ l, o.timestamp ≠ TsField.bad ∧ o.dominant_emotion = some n) :
    checkRapidEmotionSwings now l = Except.ok none := by
  have hts : ∀ o ∈ l, o.timestamp ≠ TsField.bad := fun o ho => (h o ho).1
  unfold checkRapidEmotionSwings
  simp only [recentWithin_eq now ((swingsWindow : Nat) : Rat) l hts]
  set recent := List.filter (inWindowB now ((swingsWindow : Nat) : Rat)) l with hrec
  have hconst : ∀ o ∈ recent, o.dominant_emotion = some n :=
    fun o ho => (h o (List.mem_of_mem_filter ho)).2
  have hcount : countChangesAux none recent = 0 :=
    countChangesAux_const n recent hconst none (Or.inl rfl)
  by_cases h5 : l.length < 5
  · rw [if_pos h5]
  · rw [if_neg h5]
    by_cases h3 : recent.length < 3
    · rw [if_pos h3]
    · rw [if_neg h3]
      rw [if_neg (by rw [hcount]; decide)]

theorem extreme_neutral_none (now : Rat) (l : List Obs)
    (h : ∀ o ∈ l, o.timestamp ≠ TsField.bad ∧ o.dominant_emotion = some neutralLbl) :
    checkExtremeEmotion now l = Except.ok none := by
  have hts : ∀ o ∈ l, o.timestamp ≠ TsField.bad := fun o ho => (h o ho).1
  unfold checkExtremeEmotion
  simp only [recentWithin_eq now extremeDuration l hts]
  set recent := List.filter (inWindowB now extremeDuration) l with hrec
  have hfil : recent.filter isExtObs = [] := by
    rw [List.filter_eq_nil_iff]
    intro a ha
    have hlab := (h a (List.mem_of_mem_filter ha)).2
    simp [isExtObs, labelIn, hlab, extremeEmotions, neutralLbl]
  by_cases he : l.isEmpty
  · rw [if_pos he]
  · rw [if_neg he]
    by_cases hr : recent.isEmpty
    · rw [if_pos hr]
    · rw [if_neg hr]
      rw [if_neg (by rw [hfil]; decide)]

/-- C2 as amended: on an input whose observations are all `neutral` with
confidence 1.0 (and parsable timestamps, per the data model), `check`
returns no issues and leaves the history untouched, provided
`last_interaction` is absent or less than 30 minutes in the past.  (The
original claim's "regardless of `last_interaction`" fails: the
communication-breakdown rule does not read the observations at all.) -/
theorem C2_neutral_amended (now : Rat) (l audio : List Obs) (li : Option Rat)
    (st : DetectorState)
    (hl : ∀ o ∈ l, o.timestamp ≠ TsField.bad
        ∧ o.dominant_emotion = some neutralLbl ∧ o.confidence = some 1)
    (hli : ∀ t, li = some t → (now - t) / 60 < breakdownMinutes) :
    check_critical_issues now l audio li st = Except.ok ([], st) := by
  have h1 := sustained_neutral_none now l (fun o ho => ⟨(hl o ho).1, (hl o ho).2.1⟩)
  have h2 := swings_const_none now l neutralLbl (fun o ho => ⟨(hl o ho).1, (hl o ho).2.1⟩)
  have h3 := extreme_neutral_none now l (fun o ho => ⟨(hl o ho).1, (hl o ho).2.1⟩)
  cases li with
  | none =>
      unfold check_critical_issues
      simp only [h1, h2, h3]
      simp
  | some t =>
      have hb : checkCommunicationBreakdown now t = none := by
        unfold checkCommunicationBreakdown
        rw [if_neg (not_le.mpr (hli t rfl))]
      unfold check_critical_issues
      simp only [h1, h2, h3, hb]
      simp

/-- C2 counterexample: one `neutral` observation at confidence 1.0, but
`last_interaction` 31 minutes in the past: `check` returns the
communication-breakdown issue, not the empty sequence the claim promises
"regardless of `last_interaction`". -/
theorem C2_neutral_counterexample :
    check_critical_issues 0 oneNeutral [] (some (-1860)) emptyState
        = Except.ok ([breakdownIssue31], { issue_history := [breakdownEntry31] })
      ∧ [breakdownIssue31] ≠ ([] : List Issue) := by
  constructor
  · have hextreme : checkExtremeEmotion 0 oneNeutral = Except.ok none :=
      extreme_neutral_none 0 oneNeutral (by
        intro o ho
        rw [oneNeutral] at ho
        rcases List.mem_singleton.mp ho with rfl
        exact ⟨by simp [obsAt], rfl⟩)
    have hsus : checkSustainedNegativeEmotion 0 oneNeutral = Except.ok none := rfl
    have hsw : checkRapidEmotionSwings 0 oneNeutral = Except.ok none := rfl
    unfold check_critical_issues
    rw [hsus, hsw, hextreme]
    norm_num [checkCommunicationBreakdown, breakdownMinutes, breakdownIssue31,
      breakdownEntry31, histEntryOf, minutesKey, emptyState]
  · simp

/-- Witness for the amended C2: one `neutral` observation, confidence 1,
`last_interaction` one minute in the past: no issue, state unchanged. -/
theorem C2_neutral_amended_witness :
    check_critical_issues 0 oneNeutral [] (some (-60)) emptyState
      = Except.ok ([], emptyState) := by
  refine C2_neutral_amended 0 oneNeutral [] (some (-60)) emptyState ?_ ?_
  · intro o ho
    rw [oneNeutral] at ho
    rcases List.mem_singleton.mp ho with rfl
    exact ⟨by simp [obsAt], rfl, rfl⟩
  · intro t ht
    injection ht with ht1
    subst ht1
    norm_num [breakdownMinutes]

/-! ### Claim C7: the history is append-only -/

/-- C7: a completed `check` call leaves every previous history entry in
place, unmodified and in its original order, and appends exactly one entry
per returned issue.  The equation holds for every prior state `st`, so
nothing is de-duplicated against earlier calls: re-checking an unchanged
window re-appends the same entries. -/
theorem C7_history_append (now : Rat) (l audio : List Obs) (li : Option Rat)
    (st : DetectorState) (issues : List Issue) (st' : DetectorState)
    (h : check_critical_issues now l audio li st = Except.ok (issues, st')) :
    st'.issue_history = st.issue_history ++ issues.map (histEntryOf now) := by
  unfold check_critical_issues at h
  cases hrs : checkSustainedNegativeEmotion now l with
  | error e =>
      rw [hrs] at h
      exact absurd h (by simp)
  | ok rs =>
      rw [hrs] at h
      cases hrw : checkRapidEmotionSwings now l with
      | error e =>
          rw [hrw] at h
          exact absurd h (by simp)
      | ok rw_ =>
          rw [hrw] at h
          cases hre : checkExtremeEmotion now l with
          | error e =>
              rw [hre] at h
              exact absurd h (by simp)
          | ok re =>
              rw [hre] at h
              simp only [Except.ok.injEq, Prod.mk.injEq] at h
              obtain ⟨rfl, rfl⟩ := h
              rfl

/-- Witness for C7: the breakdown-firing call appends exactly the matching
entry to the (empty) prior history. -/
theorem C7_history_append_witness :
    DetectorState.issue_history { issue_history := [breakdownEntry30] }
      = emptyState.issue_history ++ [breakdownIssue30].map (histEntryOf 0) := by
  have h : check_critical_issues 0 [] [] (some (-1800)) emptyState
      = Except.ok ([breakdownIssue30], { issue_history := [breakdownEntry30] }) := by
    have hsus : checkSustainedNegativeEmotion 0 [] = Except.ok none := rfl
    have hsw : checkRapidEmotionSwings 0 [] = Except.ok none := rfl
    have hex : checkExtremeEmotion 0 [] = Except.ok none := rfl
    unfold check_critical_issues
    rw [hsus, hsw, hex]
    norm_num [checkCommunicationBreakdown, breakdownMinutes, breakdownIssue30,
      breakdownEntry30, histEntryOf, minutesKey, emptyState]
  exact C7_history_append 0 [] [] (some (-1800)) emptyState _ _ h

/-! ### Claim C8: `get_issue_history` -/

/-- C8: the history query returns exactly those entries of `issue_history`
whose recorded time lies within `hours` of `now` (the spec's "within"
predicate, `now - raised_at ≤ hours`), as a filter of the unchanged list:
original insertion order is preserved (the result is a sublist), and the
state itself is read, never written. -/
theorem C8_history_filter (now : Rat) (hours : Int) (st : DetectorState) :
    get_issue_history now hours st
        = st.issue_history.filter
            (fun e => decide (now - e.timestamp ≤ (hours : Rat) * 3600))
      ∧ (get_issue_history now hours st).Sublist st.issue_history := by
  constructor
  · simp only [get_issue_history]
    apply List.filter_congr
    intro e he
    simp only [decide_eq_decide]
    constructor
    · intro h1
      linarith
    · intro h1
      linarith
  · exact List.filter_sublist _

/-! ### Claim C10: `audio_data` is never read -/

/-- C10: two `check` calls that agree on the emotion data, the last
interaction, the time and the prior state, but differ arbitrarily in
`audio_data`, produce identical issue lists and histories: the parameter is
accepted but never read by the method body. -/
theorem C10_audio_irrelevant (now : Rat) (l : List Obs) (a1 a2 : List Obs)
    (li : Option Rat) (st : DetectorState) :
    check_critical_issues now l a1 li st = check_critical_issues now l a2 li st := rfl

/-! ### Claim C1: a malformed timestamp aborts `check` -/

/-- C1 (the code, against the spec's requirement): a single observation
whose timestamp string `datetime.fromisoformat` rejects makes
`check_critical_issues` raise rather than excluding the item — the
`ValueError` escapes the window comprehension of `_check_extreme_emotion`,
which parses every item whenever `emotion_data` is non-empty, and no
`try`/`except` guards it.  The call aborts with no issues returned and no
history written. -/
theorem C1_bad_timestamp_aborts :
    check_critical_issues 0 [badTsObs] [] none emptyState = Except.error ()
      ∧ checkExtremeEmotion 0 [badTsObs] = Except.error () := by
  constructor
  · rfl
  · rfl

/-! ### Claim C9: `generate_report` reads the clock only in its first line -/

/-- The `report += ...` loop only ever appends: its accumulator factors out. -/
theorem reportLoop_append (l : List Issue) :
    ∀ (a b : String) (i : Nat), reportLoop (a ++ b) i l = a ++ reportLoop b i l := by
  induction l with
  | nil => intro a b i; rfl
  | cons x xs ih =>
      intro a b i
      show reportLoop ((a ++ b) ++ issueBlock i x) (i + 1) xs
        = a ++ reportLoop (b ++ issueBlock i x) (i + 1) xs
      rw [String.append_assoc]
      exact ih a (b ++ issueBlock i x) (i + 1)

theorem reportLoop_factor (acc : String) (i : Nat) (l : List Issue) :
    reportLoop acc i l = acc ++ reportLoop (String.mk []) i l := by
  have hempty : acc ++ String.mk [] = acc := by
    apply String.ext
    simp [String.data_append]
  calc reportLoop acc i l
      = reportLoop (acc ++ String.mk []) i l := by rw [hempty]
    _ = acc ++ reportLoop (String.mk []) i l := reportLoop_append l acc (String.mk []) i

/-- Dropping through the first newline ignores a newline-free leading part. -/
theorem stripFirstLine_append_of_not_mem (a : List Char) (s : List Char)
    (h : ('\n') ∉ a) : stripFirstLine (a ++ s) = stripFirstLine s := by
  induction a with
  | nil => simp
  | cons c rest ih =>
      have hc : c ≠ '\n' := fun hcc => h (hcc ▸ List.mem_cons_self c rest)
      have hrest : ('\n') ∉ rest := fun hr => h (List.mem_cons_of_mem c hr)
      simp only [List.cons_append, stripFirstLine, if_neg hc]
      exact ih hrest

/-- C9: two `generate_report` calls on the same issue list are byte-identical
after their first line: everything past the first newline is a function of
the issues alone (index, title-cased type, uppercased severity, serialized
details, recommendation), and for the empty list the output is the fixed
sentence with no timestamp at all.  `t1, t2` stand for the two
`strftime('%Y-%m-%d %H:%M:%S')` renderings of the clock, which never contain
a newline — the stated hypothesis. -/
theorem C9_report_time_only_first_line (t1 t2 : String) (issues : List Issue)
    (h1 : ('\n') ∉ t1.data) (h2 : ('\n') ∉ t2.data) :
    stripFirstLine (generate_report t1 issues).data
      = stripFirstLine (generate_report t2 issues).data := by
  by_cases he : issues.isEmpty
  · unfold generate_report
    rw [if_pos he, if_pos he]
  · have hrt : ('\n') ∉ reportTitle.data := by decide
    unfold generate_report
    rw [if_neg he, if_neg he]
    conv_lhs => rw [reportLoop_factor]
    conv_rhs => rw [reportLoop_factor]
    simp only [String.data_append, show nlStr.data = ['\n'] from rfl, List.append_assoc,
      List.singleton_append]
    rw [stripFirstLine_append_of_not_mem _ _ hrt, stripFirstLine_append_of_not_mem _ _ hrt]
    rw [stripFirstLine_append_of_not_mem _ _ h1, stripFirstLine_append_of_not_mem _ _ h2]

/-- Witness for C9 at two concrete timestamp strings and a non-empty issue
list. -/
theorem C9_report_time_only_first_line_witness :
    stripFirstLine (generate_report dateA demoIssues).data
      = stripFirstLine (generate_report dateB demoIssues).data :=
  C9_report_time_only_first_line dateA dateB demoIssues (by decide) (by decide)

end CriticalDetector
